import Mathlib

/-
Shallow embedding of the tapLock FastAPI wrapper
(src/py/taplock/taplock/fastapi.py): the session-resolution state machine,
the cookie-based credential lifecycle, the login/callback handshake, and the
two gate adapters (per-route dependency and blanket middleware).

Python dictionaries become association lists, Python exceptions become an
explicit error type, and the effectful handlers become pure functions that
also return a trace of the cookie reads and provider-client calls they make.
-/

set_option autoImplicit false

namespace Taplock

/-- A Python value as the wrapper handles it: token payloads are duck-typed
dictionaries whose entries are strings or nested dictionaries. -/
inductive Value : Type where
  | str : String → Value
  | vdict : List (String × Value) → Value

/-- A Python dict with string keys, as an association list (first binding
of a key wins, mirroring unique-key dicts). -/
abbrev Dict := List (String × Value)

/-- Python dict.get: the stored value if the key is present, else None. -/
def dget (d : Dict) (k : String) : Option Value :=
  List.lookup k d

/-- Python dict.get with a default: the stored value whenever the key is
present (even a falsy one), and the default only when the key is absent. -/
def dgetD (d : Dict) (k : String) (dflt : Value) : Value :=
  match dget d k with
  | some v => v
  | none => dflt

/-- Python truthiness for the values the wrapper branches on: an empty
string and an empty dict are falsy, everything else is truthy. -/
def Value.pyTruthy : Value → Bool
  | .str s => s != ""
  | .vdict d => !d.isEmpty

/-- Truthiness of an optional value (None is falsy). -/
def optTruthy : Option Value → Bool
  | none => false
  | some v => v.pyTruthy

/-- Arguments of a Starlette response.set_cookie call. -/
structure SetCookieArgs where
  key : String
  value : Value
  httponly : Bool
  secure : Bool
  samesite : String
  maxAge : Option Nat

/-- A cookie operation recorded on a response: a set_cookie or a
delete_cookie. -/
inductive CookieOp : Type where
  | set : SetCookieArgs → CookieOp
  | delete : String → CookieOp

/-- The text a value contributes to a cookie header (only string values are
ever set as cookies by the wrapper). -/
def valueText : Value → String
  | .str s => s
  | .vdict _ => ""

/-- The raw set-cookie header line Starlette appends for a cookie operation
(a delete_cookie is a set with Max-Age=0). -/
def renderCookieOp : CookieOp → String × String
  | .set a =>
      ("set-cookie",
        a.key ++ "=" ++ valueText a.value
          ++ (if a.httponly then "; HttpOnly" else "")
          ++ (match a.maxAge with
              | some n => "; Max-Age=" ++ toString n
              | none => "")
          ++ "; Path=/; SameSite=" ++ a.samesite
          ++ (if a.secure then "; Secure" else ""))
  | .delete k => ("set-cookie", k ++ "=; Max-Age=0; Path=/; SameSite=lax")

/-- An outbound HTTP response: status, plain headers, optional JSON body and
the cookie operations appended to it, in order. -/
structure Response where
  status : Nat
  headers : List (String × String)
  body : Option Value
  cookies : List CookieOp

/-- starlette RedirectResponse(url): a 307 with a location header and an
empty body. -/
def redirectResponse (url : String) : Response :=
  { status := 307
    headers := [("location", url), ("content-length", "0")]
    body := none
    cookies := [] }

/-- starlette JSONResponse(content, status_code, headers). -/
def jsonResponse (content : Value) (status : Nat) (headers : List (String × String)) : Response :=
  { status := status
    headers := headers ++ [("content-type", "application/json")]
    body := some content
    cookies := [] }

/-- response.set_cookie appends a set operation. -/
def Response.setCookie (r : Response) (a : SetCookieArgs) : Response :=
  { r with cookies := r.cookies ++ [CookieOp.set a] }

/-- response.delete_cookie appends a delete operation. -/
def Response.deleteCookie (r : Response) (k : String) : Response :=
  { r with cookies := r.cookies ++ [CookieOp.delete k] }

/-- Append a list of cookie operations to a response. -/
def applyOps (r : Response) (ops : List CookieOp) : Response :=
  { r with cookies := r.cookies ++ ops }

/-- All header lines of a response, the cookie operations rendered as raw
set-cookie headers (as Starlette materialises them). -/
def Response.allHeaders (r : Response) : List (String × String) :=
  r.headers ++ r.cookies.map renderCookieOp

/-- An inbound request: full URL, path, query parameters and cookies. -/
structure Request where
  url : String
  path : String
  query_params : List (String × String)
  cookies : List (String × String)

/-- request.cookies.get(k). -/
def Request.cookieGet (req : Request) (k : String) : Option String :=
  List.lookup k req.cookies

/-- request.query_params.get(k). -/
def Request.queryGet (req : Request) (k : String) : Option String :=
  List.lookup k req.query_params

/-- The request with every binding of one cookie name removed (used to state
that an empty cookie behaves like an absent one). -/
def removeCookie (req : Request) (k : String) : Request :=
  { req with cookies := req.cookies.filter (fun p => p.1 != k) }

/-- The provider client behind the Rust binding, at its boundary: one
authorization URL and three fallible token operations; a failure carries
the exception text. -/
structure TapLockClient where
  authorization_url : String
  exchange_code : String → Except String Dict
  decode_access_token : String → Except String Dict
  exchange_refresh_token : String → Except String Dict

/-- The client attribute of a TapLock object. The constructor stores the
TapLockClient class object itself (classRef); an init_* method replaces it
with an actual instance. -/
inductive ClientField : Type where
  | classRef : ClientField
  | inst : TapLockClient → ClientField

/-- Python truthiness of the client attribute: a class object and an
instance are both truthy. -/
def ClientField.pyTruthy : ClientField → Bool
  | .classRef => true
  | .inst _ => true

/-- A Python exception as the wrapper raises or propagates it. The
HTTPException carries status, detail (already defaulted to the status
phrase when constructed with detail=None, as Starlette does) and headers. -/
inductive PyError : Type where
  | httpException : Nat → String → List (String × String) → PyError
  | runtimeError : String → PyError
  | typeError : String → PyError

/-- http.HTTPStatus(code).phrase for the statuses the wrapper uses. -/
def http_status_phrase (s : Nat) : String :=
  if s = 307 then "Temporary Redirect"
  else if s = 400 then "Bad Request"
  else if s = 401 then "Unauthorized"
  else ""

/-- Construct an HTTPException: a missing detail defaults to the status
phrase (starlette.exceptions.HTTPException). -/
def mkHTTPException (status : Nat) (detail : Option String) (headers : List (String × String)) : PyError :=
  PyError.httpException status (detail.getD (http_status_phrase status)) headers

/-- self.client.get_authorization_url(): on the class object (uninitialized
use) the call raises a TypeError instead of returning a URL. -/
def ClientField.get_authorization_url : ClientField → Except PyError String
  | .classRef => .error (.typeError "get_authorization_url called on the TapLockClient class, not an instance")
  | .inst c => .ok c.authorization_url

/-- self.client.decode_access_token(t); on the class object it raises. -/
def ClientField.decode_access_token : ClientField → String → Except String Dict
  | .classRef, _ => .error "TypeError: decode_access_token called on the TapLockClient class"
  | .inst c, t => c.decode_access_token t

/-- self.client.exchange_refresh_token(t); on the class object it raises. -/
def ClientField.exchange_refresh_token : ClientField → String → Except String Dict
  | .classRef, _ => .error "TypeError: exchange_refresh_token called on the TapLockClient class"
  | .inst c, t => c.exchange_refresh_token t

/-- self.client.exchange_code(c); on the class object it raises. -/
def ClientField.exchange_code : ClientField → String → Except String Dict
  | .classRef, _ => .error "TypeError: exchange_code called on the TapLockClient class"
  | .inst c, t => c.exchange_code t

/-- The process-wide cookie/endpoint configuration read from the Rust side
at construction time. -/
structure TapLockConfig where
  access_token_cookie : String
  refresh_token_cookie : String
  callback_endpoint : String

/-- The state of a TapLock object: its configuration and its client field. -/
structure TapLockState where
  cfg : TapLockConfig
  client : ClientField

/-- TapLock._check_init: raises RuntimeError when self.client is falsy. -/
def check_init (c : ClientField) : Except String Unit :=
  if c.pyTruthy then .ok ()
  else .error "TapLock client not initialized. Please call init_* method in your FastAPI lifespan."

/-- A trace of the observable effects of one handler run: cookie names read
from the request, and the arguments of each provider-client call. -/
structure Trace where
  cookie_reads : List String
  decode_calls : List String
  refresh_calls : List String
  exchange_code_calls : List String

/-- The empty trace. -/
def Trace.nil : Trace := ⟨[], [], [], []⟩

/-- Concatenation of traces, in execution order. -/
def Trace.app (a b : Trace) : Trace :=
  ⟨a.cookie_reads ++ b.cookie_reads,
   a.decode_calls ++ b.decode_calls,
   a.refresh_calls ++ b.refresh_calls,
   a.exchange_code_calls ++ b.exchange_code_calls⟩

/-- Trace of one cookie read. -/
def readT (n : String) : Trace := ⟨[n], [], [], []⟩

/-- Trace of one decode_access_token call. -/
def decodeT (t : String) : Trace := ⟨[], [t], [], []⟩

/-- Trace of one exchange_refresh_token call. -/
def refreshT (t : String) : Trace := ⟨[], [], [t], []⟩

/-- Trace of one exchange_code call. -/
def exchangeT (c : String) : Trace := ⟨[], [], [], [c]⟩

/-- The arguments of the temporary return-to cookie set by login. -/
def return_to_cookie_args (v : String) : SetCookieArgs :=
  { key := "taplock_return_to"
    value := .str v
    httponly := true
    secure := true
    samesite := "lax"
    maxAge := some 300 }

/-- TapLock.login: check init, build the provider redirect and stash the
return-to destination in the temporary cookie. -/
def login (tl : TapLockState) (return_to : String) : Except PyError Response :=
  match check_init tl.client with
  | .error m => .error (.runtimeError m)
  | .ok _ =>
    match tl.client.get_authorization_url with
    | .error e => .error e
    | .ok auth_url =>
        .ok ((redirectResponse auth_url).setCookie (return_to_cookie_args return_to))

/-- TapLock.login_headers: the login response's headers as a dict, with
content-length removed. -/
def login_headers (tl : TapLockState) (return_to : String) : Except PyError (List (String × String)) :=
  (login tl return_to).map (fun r => r.allHeaders.filter (fun p => p.1 != "content-length"))

/-- Python `a or b` for an optional string: None and the empty string fall
through to b. -/
def pyOr (a : Option String) (b : String) : String :=
  match a with
  | none => b
  | some s => if s = "" then b else s

/-- The failure branch shared by the resolver's two denial points: redirect
to login (a 307 whose headers come from login_headers, detail defaulting to
the status phrase) or a 401 with the given detail. -/
def authFail (tl : TapLockState) (req : Request) (redirect_on_fail : Bool)
    (return_to : Option String) (detail : String) : Except PyError Dict :=
  if redirect_on_fail then
    match login_headers tl (pyOr return_to req.url) with
    | .error e => .error e
    | .ok hs => .error (mkHTTPException 307 none hs)
  else .error (mkHTTPException 401 (some detail) [])

/-- The refresh step of TapLock._handle_request: read the refresh-token
cookie; if it is missing or empty, fail with "Not authenticated"; otherwise
attempt the refresh exchange, failing with "Session expired" when the
provider rejects it. -/
def refreshStep (tl : TapLockState) (req : Request) (redirect_on_fail : Bool)
    (return_to : Option String) (tr : Trace) : Except PyError Dict × Trace :=
  let tr2 := tr.app (readT tl.cfg.refresh_token_cookie)
  match req.cookieGet tl.cfg.refresh_token_cookie with
  | none => (authFail tl req redirect_on_fail return_to "Not authenticated", tr2)
  | some r =>
    if r = "" then (authFail tl req redirect_on_fail return_to "Not authenticated", tr2)
    else
      match tl.client.exchange_refresh_token r with
      | .ok td => (.ok td, tr2.app (refreshT r))
      | .error _ => (authFail tl req redirect_on_fail return_to "Session expired", tr2.app (refreshT r))

/-- TapLock._handle_request: the session resolver. Check init, try the
access-token cookie (a truthy cookie is decoded, any decode failure is
swallowed), then fall through to the refresh step. -/
def handle_request (tl : TapLockState) (req : Request) (redirect_on_fail : Bool)
    (return_to : Option String) : Except PyError Dict × Trace :=
  match check_init tl.client with
  | .error m => (.error (.runtimeError m), Trace.nil)
  | .ok _ =>
    let tr := readT tl.cfg.access_token_cookie
    match req.cookieGet tl.cfg.access_token_cookie with
    | some a =>
      if a = "" then refreshStep tl req redirect_on_fail return_to tr
      else
        match tl.client.decode_access_token a with
        | .ok td => (.ok td, tr.app (decodeT a))
        | .error _ => refreshStep tl req redirect_on_fail return_to (tr.app (decodeT a))
    | none => refreshStep tl req redirect_on_fail return_to tr

/-- The arguments of a credential cookie write (no max-age: session cookie). -/
def auth_cookie_args (name : String) (v : Value) : SetCookieArgs :=
  { key := name
    value := v
    httponly := true
    secure := true
    samesite := "lax"
    maxAge := none }

/-- One conditional credential-cookie write: set only when the token value
is present and truthy (Python `if access_token:`). -/
def set_cookie_if (name : String) (v : Option Value) : List CookieOp :=
  match v with
  | some w => if w.pyTruthy then [CookieOp.set (auth_cookie_args name w)] else []
  | none => []

/-- TapLock._set_cookies: the cookie operations written for a token dict,
access first then refresh, each iff its key holds a truthy value. -/
def set_cookies (cfg : TapLockConfig) (td : Dict) : List CookieOp :=
  set_cookie_if cfg.access_token_cookie (dget td "access_token")
    ++ set_cookie_if cfg.refresh_token_cookie (dget td "refresh_token")

/-- TapLock.callback: require a truthy code query parameter (400 otherwise),
exchange it (400 wrapping the provider message on failure), then build the
redirect to the stored return-to, set the credential cookies on it and
delete the temporary return-to cookie. -/
def callback (tl : TapLockState) (req : Request) : Except PyError Response × Trace :=
  match check_init tl.client with
  | .error m => (.error (.runtimeError m), Trace.nil)
  | .ok _ =>
    match req.queryGet "code" with
    | none => (.error (mkHTTPException 400 (some "Authorization code not found") []), Trace.nil)
    | some c =>
      if c = "" then
        (.error (mkHTTPException 400 (some "Authorization code not found") []), Trace.nil)
      else
        match tl.client.exchange_code c with
        | .error e =>
            (.error (mkHTTPException 400 (some ("Failed to exchange code: " ++ e)) []), exchangeT c)
        | .ok td =>
            let return_to := (req.cookieGet "taplock_return_to").getD "/"
            let resp := applyOps (redirectResponse return_to) (set_cookies tl.cfg td)
            (.ok (resp.deleteCookie "taplock_return_to"),
             (exchangeT c).app (readT "taplock_return_to"))

/-- TapLock._secure_impl: resolve the session, then write the fresh
credential cookies onto the response and return the claims
(token_data.get("fields", token_data)). -/
def secure_impl (tl : TapLockState) (req : Request) (resp : Response)
    (redirect_on_fail : Bool) (return_to : Option String) :
    Except PyError (Value × Response) × Trace :=
  match handle_request tl req redirect_on_fail return_to with
  | (.error e, tr) => (.error e, tr)
  | (.ok td, tr) =>
      (.ok (dgetD td "fields" (.vdict td), applyOps resp (set_cookies tl.cfg td)), tr)

/-- FastAPI's default handler for a raised HTTPException: a JSON body
carrying the detail, except for the bodiless statuses 204 and 304. -/
def render_http_exception (s : Nat) (d : String) (hs : List (String × String)) : Response :=
  if s = 204 || s = 304 then { status := s, headers := hs, body := none, cookies := [] }
  else jsonResponse (.vdict [("detail", .str d)]) s hs

/-- The per-route dependency surface as FastAPI runs it: secure_impl over
the route handler's response; a raised HTTPException is rendered by the
default handler, other exceptions propagate to the server. -/
def gate_render (tl : TapLockState) (req : Request) (redirect_on_fail : Bool)
    (return_to : Option String) (next : Request → Response) :
    Except PyError Response × Trace :=
  match secure_impl tl req (next req) redirect_on_fail return_to with
  | (.ok p, tr) => (.ok p.2, tr)
  | (.error (.httpException s d hs), tr) => (.ok (render_http_exception s d hs), tr)
  | (.error e, tr) => (.error e, tr)

/-- TapLockMiddleware.dispatch: the callback path is delegated straight to
the callback handler; every other path is resolved, an HTTPException is
rendered as a JSON response (with an "unauthorized" fallback body for a
falsy detail), and on success the downstream response gets the fresh
credential cookies. -/
def dispatch (tl : TapLockState) (redirect_on_fail : Bool) (return_to : Option String)
    (req : Request) (next : Request → Response) : Except PyError Response × Trace :=
  if req.path = tl.cfg.callback_endpoint then callback tl req
  else
    match handle_request tl req redirect_on_fail return_to with
    | (.ok td, tr) => (.ok (applyOps (next req) (set_cookies tl.cfg td)), tr)
    | (.error (.httpException s d hs), tr) =>
        (.ok (jsonResponse
                (if d != "" then Value.vdict [("detail", .str d)]
                 else Value.vdict [("detail", .str "unauthorized")]) s hs), tr)
    | (.error e, tr) => (.error e, tr)

/-! Concrete fixtures used by witnesses and counterexamples: a cookie and
endpoint configuration, a fully initialized provider client, and a few
requests. -/

/-- Cookie names and callback endpoint as the Rust side configures them. -/
def cfgW : TapLockConfig :=
  { access_token_cookie := "taplock_access_token"
    refresh_token_cookie := "taplock_refresh_token"
    callback_endpoint := "/auth/callback" }

/-- A concrete provider client: accepts code "abc", access token "good" and
refresh token "refok", rejects everything else. -/
def clientW : TapLockClient :=
  { authorization_url := "https://provider.example/authorize"
    exchange_code := fun c =>
      if c = "abc" then .ok [("access_token", .str "acc"), ("refresh_token", .str "ref")]
      else .error "denied"
    decode_access_token := fun t =>
      if t = "good" then .ok [("sub", .str "alice")] else .error "bad token"
    exchange_refresh_token := fun r =>
      if r = "refok" then .ok [("access_token", .str "newacc"), ("refresh_token", .str "newref")]
      else .error "refresh rejected" }

/-- An initialized TapLock object. -/
def tlW : TapLockState := { cfg := cfgW, client := .inst clientW }

/-- A TapLock object as constructed, before any init_* call: the client
field holds the TapLockClient class object. -/
def tlUninit : TapLockState := { cfg := cfgW, client := .classRef }

/-- A request with no cookies and no query parameters. -/
def reqBare : Request :=
  { url := "https://app.example/page", path := "/page", query_params := [], cookies := [] }

/-- A response with nothing on it yet (the fresh Response FastAPI hands to a
dependency). -/
def emptyResponse : Response :=
  { status := 200, headers := [], body := none, cookies := [] }

/-- A downstream application that ignores the request and returns the empty
response. -/
def nextW : Request → Response := fun _ => emptyResponse

/-- The ok payload of a fallible response computation (default for errors). -/
def okRespOf (x : Except PyError Response) : Response :=
  match x with
  | .ok r => r
  | .error _ => emptyResponse

/-- A request hitting the callback path with no code parameter but carrying
a return-to cookie. -/
def reqNoCode : Request :=
  { url := "https://app.example/auth/callback"
    path := "/auth/callback"
    query_params := []
    cookies := [("taplock_return_to", "/dash")] }

/-- A request hitting the callback path with a valid code and a stored
return-to cookie. -/
def reqCbOk : Request :=
  { url := "https://app.example/auth/callback?code=abc"
    path := "/auth/callback"
    query_params := [("code", "abc")]
    cookies := [("taplock_return_to", "/dash")] }

/-- A request hitting the callback path with nothing else on it. -/
def reqCbPath : Request :=
  { url := "https://app.example/auth/callback"
    path := "/auth/callback"
    query_params := []
    cookies := [] }

/-- A request carrying only a decodable access-token cookie. -/
def reqAccGood : Request :=
  { reqBare with cookies := [("taplock_access_token", "good")] }

/-- A request carrying only a refresh-token cookie the provider accepts. -/
def reqRefOnly : Request :=
  { reqBare with cookies := [("taplock_refresh_token", "refok")] }

/-- A request carrying only a refresh-token cookie the provider rejects. -/
def reqRefBad : Request :=
  { reqBare with cookies := [("taplock_refresh_token", "stale")] }

/-- A request whose access and refresh cookies are present but empty. -/
def reqEmptyCookies : Request :=
  { reqBare with cookies := [("taplock_access_token", ""), ("taplock_refresh_token", "")] }

/-- A provider client whose access-token decode returns claims that contain
an access_token entry themselves. -/
def clientLeaky : TapLockClient :=
  { clientW with decode_access_token := fun _ => .ok [("access_token", .str "leaked")] }

/-- A TapLock object over the leaky-claims client. -/
def tlLeaky : TapLockState := { cfg := cfgW, client := .inst clientLeaky }

/-- A provider client whose refresh exchange returns credentials with a
present-but-empty refresh_token entry. -/
def clientEmptyRef : TapLockClient :=
  { clientW with
      exchange_refresh_token := fun _ =>
        .ok [("access_token", .str "newacc"), ("refresh_token", .str "")] }

/-- A TapLock object over the empty-refresh-token client. -/
def tlEmptyRef : TapLockState := { cfg := cfgW, client := .inst clientEmptyRef }

/-- The access-token cookie yields no authorization on this request: if one
is present it is empty or its decode fails. -/
def accessUnusable (tl : TapLockState) (req : Request) : Prop :=
  ∀ a, req.cookieGet tl.cfg.access_token_cookie = some a →
    a = "" ∨ ∃ e, tl.client.decode_access_token a = .error e

/-- No usable refresh-token cookie is on this request: if one is present it
is empty. -/
def refreshUnavailable (tl : TapLockState) (req : Request) : Prop :=
  ∀ r, req.cookieGet tl.cfg.refresh_token_cookie = some r → r = ""

/-- A refresh-token cookie is present on this request and the refresh
exchange fails on it. -/
def refreshFails (tl : TapLockState) (req : Request) : Prop :=
  ∃ r e, req.cookieGet tl.cfg.refresh_token_cookie = some r ∧ r ≠ "" ∧
    tl.client.exchange_refresh_token r = .error e

/-! Helper lemmas shared by the claim theorems. -/

/-- The not-initialized guard can never fire: the client field is a class
object or an instance, and both are truthy in Python. -/
theorem check_init_ok (c : ClientField) : check_init c = Except.ok () := by
  cases c <;> rfl

/-- A rendered HTTPException carries no cookie operation. -/
theorem render_http_exception_cookies (s : Nat) (d : String) (hs : List (String × String)) :
    (render_http_exception s d hs).cookies = [] := by
  unfold render_http_exception
  split
  · rfl
  · rfl

/-- login never raises an HTTPException: its only failures are the dead
RuntimeError and the TypeError of uninitialized method access. -/
theorem login_no_http_error (tl : TapLockState) (v : String) (s : Nat) (d : String)
    (hs : List (String × String)) :
    login tl v ≠ Except.error (PyError.httpException s d hs) := by
  cases hc : tl.client <;>
    simp [login, check_init, ClientField.pyTruthy, ClientField.get_authorization_url, hc]

/-- login_headers never produces an HTTPException either. -/
theorem login_headers_no_http_error (tl : TapLockState) (v : String) (s : Nat) (d : String)
    (hs : List (String × String)) :
    login_headers tl v ≠ Except.error (PyError.httpException s d hs) := by
  intro h
  unfold login_headers at h
  cases hl : login tl v with
  | ok r => rw [hl] at h; simp [Except.map] at h
  | error e =>
      rw [hl] at h
      simp only [Except.map] at h
      cases h
      exact login_no_http_error tl v s d hs hl

/-- Every HTTPException out of authFail is the 307 redirect with the status
phrase as detail, or the 401 with the given detail. -/
theorem authFail_http_cases (tl : TapLockState) (req : Request) (rof : Bool)
    (rt : Option String) (detail : String) (s : Nat) (d : String)
    (hs : List (String × String))
    (h : authFail tl req rof rt detail = Except.error (PyError.httpException s d hs)) :
    (s = 307 ∧ d = "Temporary Redirect") ∨ (s = 401 ∧ d = detail) := by
  unfold authFail at h
  cases rof with
  | false =>
      simp only [Bool.false_eq_true, if_false, mkHTTPException, Option.getD] at h
      cases h
      exact Or.inr ⟨rfl, rfl⟩
  | true =>
      simp only [if_true] at h
      cases hl : login_headers tl (pyOr rt req.url) with
      | error e =>
          rw [hl] at h
          cases h
          exact absurd hl (login_headers_no_http_error tl (pyOr rt req.url) s d hs)
      | ok hs2 =>
          rw [hl] at h
          simp only [mkHTTPException, Option.getD, http_status_phrase] at h
          cases h
          exact Or.inl ⟨rfl, rfl⟩

/-- Every HTTPException out of the refresh step is the 307 redirect or a 401
whose detail is one of the two denial strings. -/
theorem refreshStep_http_cases (tl : TapLockState) (req : Request) (rof : Bool)
    (rt : Option String) (tr : Trace) (s : Nat) (d : String)
    (hs : List (String × String))
    (h : (refreshStep tl req rof rt tr).1 = Except.error (PyError.httpException s d hs)) :
    (s = 307 ∧ d = "Temporary Redirect")
      ∨ (s = 401 ∧ (d = "Not authenticated" ∨ d = "Session expired")) := by
  unfold refreshStep at h
  cases hr : req.cookieGet tl.cfg.refresh_token_cookie with
  | none =>
      simp only [hr] at h
      rcases authFail_http_cases tl req rof rt "Not authenticated" s d hs h with h1 | h1
      · exact Or.inl h1
      · exact Or.inr ⟨h1.1, Or.inl h1.2⟩
  | some r =>
      by_cases hre : r = ""
      · simp only [hr, hre, if_pos] at h
        rcases authFail_http_cases tl req rof rt "Not authenticated" s d hs h with h1 | h1
        · exact Or.inl h1
        · exact Or.inr ⟨h1.1, Or.inl h1.2⟩
      · simp only [hr, if_neg hre] at h
        cases hx : tl.client.exchange_refresh_token r with
        | ok td =>
            rw [hx] at h
            exact Except.noConfusion h
        | error e =>
            simp only [hx] at h
            rcases authFail_http_cases tl req rof rt "Session expired" s d hs h with h1 | h1
            · exact Or.inl h1
            · exact Or.inr ⟨h1.1, Or.inr h1.2⟩

/-- Every HTTPException out of the resolver is the 307 redirect or a 401
whose detail is one of the two denial strings. -/
theorem handle_request_http_cases (tl : TapLockState) (req : Request) (rof : Bool)
    (rt : Option String) (s : Nat) (d : String) (hs : List (String × String))
    (h : (handle_request tl req rof rt).1 = Except.error (PyError.httpException s d hs)) :
    (s = 307 ∧ d = "Temporary Redirect")
      ∨ (s = 401 ∧ (d = "Not authenticated" ∨ d = "Session expired")) := by
  unfold handle_request at h
  rw [check_init_ok] at h
  cases ha : req.cookieGet tl.cfg.access_token_cookie with
  | none =>
      simp only [ha] at h
      exact refreshStep_http_cases tl req rof rt _ s d hs h
  | some a =>
      by_cases hae : a = ""
      · simp only [ha, hae, if_pos] at h
        exact refreshStep_http_cases tl req rof rt _ s d hs h
      · simp only [ha, if_neg hae] at h
        cases hd : tl.client.decode_access_token a with
        | ok td =>
            rw [hd] at h
            exact Except.noConfusion h
        | error e =>
            simp only [hd] at h
            exact refreshStep_http_cases tl req rof rt _ s d hs h

/-- authFail without redirect is the 401 with the given detail. -/
theorem authFail_false (tl : TapLockState) (req : Request) (rt : Option String)
    (detail : String) :
    authFail tl req false rt detail
      = Except.error (PyError.httpException 401 detail []) := rfl

/-- authFail with redirect, over an initialized client, is the 307 whose
headers carry the provider location and the return-to cookie valued with
the effective target. -/
theorem authFail_true (tl : TapLockState) (req : Request) (rt : Option String)
    (detail : String) (c : TapLockClient) (hc : tl.client = .inst c) :
    authFail tl req true rt detail
      = Except.error (PyError.httpException 307 "Temporary Redirect"
          [("location", c.authorization_url),
           renderCookieOp (CookieOp.set (return_to_cookie_args (pyOr rt req.url)))]) := by
  simp only [authFail, login_headers, login, hc, check_init, ClientField.pyTruthy,
    ClientField.get_authorization_url, if_true, Except.map]
  rfl

/-- The outcome of the refresh step does not depend on the trace threaded
into it. -/
theorem refreshStep_fst_tr (tl : TapLockState) (req : Request) (rof : Bool)
    (rt : Option String) (tr : Trace) :
    (refreshStep tl req rof rt tr).1 = (refreshStep tl req rof rt Trace.nil).1 := by
  unfold refreshStep
  cases hr : req.cookieGet tl.cfg.refresh_token_cookie with
  | none => rfl
  | some r =>
      by_cases hre : r = ""
      · simp only [hre, if_pos]
      · simp only [if_neg hre]
        cases hx : tl.client.exchange_refresh_token r <;> rfl

/-- When the access cookie is unusable, the resolver's outcome is the
outcome of the refresh step. -/
theorem handle_request_fst_unusable (tl : TapLockState) (req : Request) (rof : Bool)
    (rt : Option String) (h : accessUnusable tl req) :
    (handle_request tl req rof rt).1 = (refreshStep tl req rof rt Trace.nil).1 := by
  unfold handle_request
  rw [check_init_ok]
  cases ha : req.cookieGet tl.cfg.access_token_cookie with
  | none => exact refreshStep_fst_tr tl req rof rt _
  | some a =>
      rcases h a ha with hae | ⟨e, he⟩
      · simp only [hae, if_pos]
        exact refreshStep_fst_tr tl req rof rt _
      · by_cases hae : a = ""
        · simp only [hae, if_pos]
          exact refreshStep_fst_tr tl req rof rt _
        · simp only [if_neg hae, he]
          exact refreshStep_fst_tr tl req rof rt _

/-- With no usable refresh cookie, the refresh step fails with the
"Not authenticated" branch and never calls the refresh exchange. -/
theorem refreshStep_unavailable (tl : TapLockState) (req : Request) (rof : Bool)
    (rt : Option String) (tr : Trace) (h : refreshUnavailable tl req) :
    refreshStep tl req rof rt tr
      = (authFail tl req rof rt "Not authenticated",
         tr.app (readT tl.cfg.refresh_token_cookie)) := by
  unfold refreshStep
  cases hr : req.cookieGet tl.cfg.refresh_token_cookie with
  | none => rfl
  | some r => simp only [h r hr, if_pos]

/-- With a refresh cookie the provider rejects, the refresh step fails with
the "Session expired" branch. -/
theorem refreshStep_fails (tl : TapLockState) (req : Request) (rof : Bool)
    (rt : Option String) (tr : Trace) (h : refreshFails tl req) :
    (refreshStep tl req rof rt tr).1 = authFail tl req rof rt "Session expired" := by
  obtain ⟨r, e, hr, hre, hx⟩ := h
  unfold refreshStep
  simp only [hr, if_neg hre, hx]

/-- With a refresh cookie the provider accepts, the refresh step succeeds
with the exchanged credentials. -/
theorem refreshStep_ok (tl : TapLockState) (req : Request) (rof : Bool)
    (rt : Option String) (tr : Trace) (r : String) (td : Dict) (c : TapLockClient)
    (hc : tl.client = .inst c) (hr : req.cookieGet tl.cfg.refresh_token_cookie = some r)
    (hre : r ≠ "") (hx : c.exchange_refresh_token r = .ok td) :
    (refreshStep tl req rof rt tr).1 = .ok td := by
  unfold refreshStep
  simp only [hr, if_neg hre, hc, ClientField.exchange_refresh_token, hx]

/-- A falsy (absent or empty) token value yields no cookie write. -/
theorem set_cookie_if_falsy (n : String) (v : Option Value) (h : optTruthy v = false) :
    set_cookie_if n v = [] := by
  cases v with
  | none => rfl
  | some w =>
      simp only [optTruthy] at h
      simp only [set_cookie_if, h, if_false, Bool.false_eq_true]

/-- The conditional cookie write, written as one if-expression over
truthiness. -/
theorem set_cookie_if_eq_ite (n : String) (v : Option Value) :
    set_cookie_if n v
      = if optTruthy v
          then [CookieOp.set (auth_cookie_args n (v.getD (Value.str "")))] else [] := by
  cases v with
  | none => rfl
  | some w =>
      simp only [set_cookie_if, optTruthy, Option.getD]

/-- Looking up the very key whose bindings were filtered out gives nothing. -/
theorem lookup_filter_self (k : String) (l : List (String × String)) :
    List.lookup k (l.filter (fun p => p.1 != k)) = none := by
  induction l with
  | nil => rfl
  | cons p l ih =>
      rcases p with ⟨a, b⟩
      by_cases hak : a = k
      · subst hak
        simpa [List.filter_cons] using ih
      · have hka : (k == a) = false := beq_eq_false_iff_ne.mpr (fun h => hak h.symm)
        have hb : (a != k) = true := bne_iff_ne.mpr hak
        simpa [List.filter_cons, hb, List.lookup, hka] using ih

/-- Looking up a different key is unaffected by the filtering. -/
theorem lookup_filter_other (k m : String) (hmk : m ≠ k) (l : List (String × String)) :
    List.lookup m (l.filter (fun p => p.1 != k)) = List.lookup m l := by
  induction l with
  | nil => rfl
  | cons p l ih =>
      rcases p with ⟨a, b⟩
      by_cases hak : a = k
      · subst hak
        have hma : (m == a) = false := beq_eq_false_iff_ne.mpr hmk
        simpa [List.filter_cons, List.lookup, hma] using ih
      · have hb : (a != k) = true := bne_iff_ne.mpr hak
        simp only [List.filter_cons, hb, if_true]
        cases hma : m == a <;> simp [List.lookup, hma, ih]

/-- Cookie lookup after removing one cookie name: the removed name reads as
absent, every other name is unchanged. -/
theorem cookieGet_removeCookie (req : Request) (k m : String) :
    (removeCookie req k).cookieGet m = if m = k then none else req.cookieGet m := by
  by_cases hmk : m = k
  · rw [if_pos hmk, hmk]
    exact lookup_filter_self k req.cookies
  · rw [if_neg hmk]
    exact lookup_filter_other k m hmk req.cookies

/-- authFail only inspects the request through its URL. -/
theorem authFail_congr_url (tl : TapLockState) (req req2 : Request) (rof : Bool)
    (rt : Option String) (detail : String) (hurl : req.url = req2.url) :
    authFail tl req rof rt detail = authFail tl req2 rof rt detail := by
  unfold authFail
  rw [hurl]

/-- The refresh step only inspects the request through its URL and its
refresh-token cookie. -/
theorem refreshStep_congr (tl : TapLockState) (req req2 : Request) (rof : Bool)
    (rt : Option String) (tr : Trace) (hurl : req.url = req2.url)
    (hcook : req.cookieGet tl.cfg.refresh_token_cookie
             = req2.cookieGet tl.cfg.refresh_token_cookie) :
    refreshStep tl req rof rt tr = refreshStep tl req2 rof rt tr := by
  unfold refreshStep
  rw [← hcook]
  cases hr : req.cookieGet tl.cfg.refresh_token_cookie with
  | none => rw [authFail_congr_url tl req req2 rof rt _ hurl]
  | some r =>
      by_cases hre : r = ""
      · simp only [hre, eq_self_iff_true, if_true]
        rw [authFail_congr_url tl req req2 rof rt _ hurl]
      · simp only [if_neg hre]
        cases hx : tl.client.exchange_refresh_token r with
        | ok td => rfl
        | error e => rw [authFail_congr_url tl req req2 rof rt _ hurl]

/-- A present-but-empty refresh cookie drives the refresh step exactly as an
absent one does. -/
theorem refreshStep_empty_eq_absent (tl : TapLockState) (req req2 : Request) (rof : Bool)
    (rt : Option String) (tr : Trace) (hurl : req.url = req2.url)
    (h1 : req.cookieGet tl.cfg.refresh_token_cookie = some "")
    (h2 : req2.cookieGet tl.cfg.refresh_token_cookie = none) :
    refreshStep tl req rof rt tr = refreshStep tl req2 rof rt tr := by
  unfold refreshStep
  rw [h1, h2]
  simp only [eq_self_iff_true, if_true]
  rw [authFail_congr_url tl req req2 rof rt _ hurl]

/-- Deleting an empty refresh cookie does not change the refresh step. -/
theorem refreshStep_remove_refresh (tl : TapLockState) (req : Request) (rof : Bool)
    (rt : Option String) (tr : Trace)
    (h2 : req.cookieGet tl.cfg.refresh_token_cookie = some "") :
    refreshStep tl req rof rt tr
      = refreshStep tl (removeCookie req tl.cfg.refresh_token_cookie) rof rt tr :=
  refreshStep_empty_eq_absent tl req _ rof rt tr rfl h2
    (by rw [cookieGet_removeCookie]; simp)

/-- Deleting an (empty) access cookie does not change the refresh step. -/
theorem refreshStep_remove_access (tl : TapLockState) (req : Request) (rof : Bool)
    (rt : Option String) (tr : Trace)
    (h1 : req.cookieGet tl.cfg.access_token_cookie = some "") :
    refreshStep tl req rof rt tr
      = refreshStep tl (removeCookie req tl.cfg.access_token_cookie) rof rt tr := by
  by_cases hnm : tl.cfg.refresh_token_cookie = tl.cfg.access_token_cookie
  · exact refreshStep_empty_eq_absent tl req _ rof rt tr rfl
      (by rw [hnm]; exact h1)
      (by rw [cookieGet_removeCookie, if_pos hnm])
  · exact refreshStep_congr tl req _ rof rt tr rfl
      (by rw [cookieGet_removeCookie, if_neg hnm])

/-- The refresh step makes no decode call beyond those already traced. -/
theorem refreshStep_trace_decode (tl : TapLockState) (req : Request) (rof : Bool)
    (rt : Option String) (tr : Trace) :
    (refreshStep tl req rof rt tr).2.decode_calls = tr.decode_calls := by
  unfold refreshStep
  cases hr : req.cookieGet tl.cfg.refresh_token_cookie with
  | none => simp [Trace.app, readT]
  | some r =>
      by_cases hre : r = ""
      · simp [hre, Trace.app, readT]
      · simp only [if_neg hre]
        cases hx : tl.client.exchange_refresh_token r <;>
          simp [Trace.app, readT, refreshT]

/-- With an empty refresh cookie the refresh step attempts no exchange. -/
theorem refreshStep_no_refresh_call (tl : TapLockState) (req : Request) (rof : Bool)
    (rt : Option String) (tr : Trace)
    (h : req.cookieGet tl.cfg.refresh_token_cookie = some "") :
    (refreshStep tl req rof rt tr).2.refresh_calls = tr.refresh_calls := by
  unfold refreshStep
  rw [h]
  simp [Trace.app, readT]

/-- The callback handler performs no session-resolution effect: it never
decodes an access token, never exchanges a refresh token, and the only
cookie it may read is the temporary return-to cookie. -/
theorem callback_trace_resolution_free (tl : TapLockState) (req : Request) :
    (callback tl req).2.decode_calls = [] ∧ (callback tl req).2.refresh_calls = [] ∧
    ∀ n ∈ (callback tl req).2.cookie_reads, n = "taplock_return_to" := by
  have hcases : (callback tl req).2 = Trace.nil
      ∨ (∃ c, (callback tl req).2 = exchangeT c)
      ∨ (∃ c, (callback tl req).2 = (exchangeT c).app (readT "taplock_return_to")) := by
    simp only [callback, check_init_ok]
    cases hq : req.queryGet "code" with
    | none => exact Or.inl rfl
    | some c =>
        by_cases hce : c = ""
        · simp [hce]
        · simp only [if_neg hce]
          cases hx : tl.client.exchange_code c with
          | error e => exact Or.inr (Or.inl ⟨c, rfl⟩)
          | ok td => exact Or.inr (Or.inr ⟨c, rfl⟩)
  rcases hcases with h | ⟨c, h⟩ | ⟨c, h⟩ <;>
    rw [h] <;> simp [Trace.nil, exchangeT, Trace.app, readT]

/-! Claim theorems. -/

/-- C2 (code_bug evidence): the spec requires every gated operation invoked
before any init_* call to fail loudly with an initialization error, and the
code documents the same intent in _check_init's RuntimeError message — but
the constructor stores the truthy TapLockClient class object in self.client,
so the guard can never fire (first conjunct: _check_init succeeds on every
possible client field). An uninitialized resolver run proceeds and reports
an ordinary 401 "Not authenticated" (second conjunct), and an uninitialized
callback wraps the resulting TypeError into an ordinary 400 exchange-failure
response (third conjunct): uninitialized use is not surfaced as an
initialization fault. -/
theorem uninitializedGateProceedsSilently :
    (∀ c : ClientField, check_init c = Except.ok ()) ∧
    (handle_request tlUninit reqBare false none).1
      = Except.error (PyError.httpException 401 "Not authenticated" []) ∧
    (callback tlUninit { reqBare with query_params := [("code", "abc")] }).1
      = Except.error (PyError.httpException 400
          "Failed to exchange code: TypeError: exchange_code called on the TapLockClient class"
          []) :=
  ⟨check_init_ok, rfl, rfl⟩

/-- C7 (confirmed): a callback invocation whose query string lacks a code
parameter raises the 400 "Authorization code not found" HTTPException with
an empty effect trace (no provider call, no cookie read), its rendered
response carries no cookie operation — neither credential cookies nor the
return-to cookie are set — and the handler is a pure function of its input,
so repeated invocations on the same input return the identical result. -/
theorem callbackMissingCodeIs400NoCookies (tl : TapLockState) (req : Request)
    (h : req.queryGet "code" = none) :
    callback tl req
      = (Except.error (PyError.httpException 400 "Authorization code not found" []),
         Trace.nil) ∧
    (render_http_exception 400 "Authorization code not found" []).cookies = [] ∧
    callback tl req = callback tl req := by
  refine ⟨?_, render_http_exception_cookies 400 _ [], rfl⟩
  simp only [callback, check_init_ok, h]
  rfl

/-- Witness for C7 at a concrete request carrying no code parameter. -/
theorem callbackMissingCodeIs400NoCookiesWitness :
    callback tlW reqBare
      = (Except.error (PyError.httpException 400 "Authorization code not found" []),
         Trace.nil) :=
  (callbackMissingCodeIs400NoCookies tlW reqBare rfl).1

/-- C9 (confirmed): a request whose path equals the configured callback
endpoint is delegated by the middleware straight to the callback handler
(the dispatch result is exactly the callback result), and the callback
handler performs no session-resolution work: it never calls
decode_access_token or exchange_refresh_token, and the only cookie it may
read is the temporary return-to cookie — in particular neither credential
cookie is read. -/
theorem middlewareDelegatesCallbackPath (tl : TapLockState) (rof : Bool)
    (rt : Option String) (req : Request) (next : Request → Response)
    (hp : req.path = tl.cfg.callback_endpoint) :
    dispatch tl rof rt req next = callback tl req ∧
    (callback tl req).2.decode_calls = [] ∧
    (callback tl req).2.refresh_calls = [] ∧
    ∀ n ∈ (callback tl req).2.cookie_reads, n = "taplock_return_to" := by
  refine ⟨?_, callback_trace_resolution_free tl req⟩
  unfold dispatch
  rw [if_pos hp]

/-- Witness for C9 at a concrete request on the callback path. -/
theorem middlewareDelegatesCallbackPathWitness :
    dispatch tlW false none reqCbPath nextW = callback tlW reqCbPath :=
  (middlewareDelegatesCallbackPath tlW false none reqCbPath nextW rfl).1

/-- C10 (confirmed): a present-but-empty access-token cookie is treated
exactly as an absent one — the resolver's outcome and effect trace are
unchanged when the empty cookie is deleted from the request, and
decode_access_token is never called; likewise a present-but-empty
refresh-token cookie is treated as absent and no refresh exchange is
attempted. -/
theorem emptyCookieTreatedAsAbsent (tl : TapLockState) (req : Request) (rof : Bool)
    (rt : Option String) :
    (req.cookieGet tl.cfg.access_token_cookie = some "" →
        handle_request tl req rof rt
          = handle_request tl (removeCookie req tl.cfg.access_token_cookie) rof rt ∧
        (handle_request tl req rof rt).2.decode_calls = []) ∧
    (req.cookieGet tl.cfg.refresh_token_cookie = some "" →
        handle_request tl req rof rt
          = handle_request tl (removeCookie req tl.cfg.refresh_token_cookie) rof rt ∧
        (handle_request tl req rof rt).2.refresh_calls = []) := by
  constructor
  · intro h1
    constructor
    · simp only [handle_request, check_init_ok, h1, cookieGet_removeCookie,
        eq_self_iff_true, if_true]
      exact refreshStep_remove_access tl req rof rt _ h1
    · simp only [handle_request, check_init_ok, h1, eq_self_iff_true, if_true,
        refreshStep_trace_decode]
      rfl
  · intro h2
    constructor
    · simp only [handle_request, check_init_ok, cookieGet_removeCookie]
      by_cases hnm : tl.cfg.access_token_cookie = tl.cfg.refresh_token_cookie
      · have h1 : req.cookieGet tl.cfg.access_token_cookie = some "" := by
          rw [hnm]; exact h2
        simp only [h1, if_pos hnm, eq_self_iff_true, if_true]
        exact refreshStep_remove_refresh tl req rof rt _ h2
      · simp only [if_neg hnm]
        cases ha : req.cookieGet tl.cfg.access_token_cookie with
        | none => exact refreshStep_remove_refresh tl req rof rt _ h2
        | some a =>
            by_cases hae : a = ""
            · simp only [hae, eq_self_iff_true, if_true]
              exact refreshStep_remove_refresh tl req rof rt _ h2
            · simp only [if_neg hae]
              cases hd : tl.client.decode_access_token a with
              | ok td => rfl
              | error e => exact refreshStep_remove_refresh tl req rof rt _ h2
    · simp only [handle_request, check_init_ok]
      cases ha : req.cookieGet tl.cfg.access_token_cookie with
      | none =>
          rw [refreshStep_no_refresh_call tl req rof rt _ h2]
          rfl
      | some a =>
          by_cases hae : a = ""
          · simp only [hae, eq_self_iff_true, if_true]
            rw [refreshStep_no_refresh_call tl req rof rt _ h2]
            rfl
          · simp only [if_neg hae]
            cases hd : tl.client.decode_access_token a with
            | ok td => rfl
            | error e =>
                rw [refreshStep_no_refresh_call tl req rof rt _ h2]
                rfl

/-- Witness for C10 at a concrete request whose credential cookies are both
present but empty. -/
theorem emptyCookieTreatedAsAbsentWitness :
    handle_request tlW reqEmptyCookies false none
      = handle_request tlW (removeCookie reqEmptyCookies "taplock_access_token") false none :=
  ((emptyCookieTreatedAsAbsent tlW reqEmptyCookies false none).1 rfl).1

/-- C1 counterexample: on the missing-code path the callback raises a 400
whose rendered response carries no cookie operation at all; the return-to
cookie carried by the request is therefore not cleared on the outbound
response and survives past callback, contradicting clear-on-all-paths. -/
theorem callbackErrorPathKeepsReturnToCookie :
    reqNoCode.cookieGet "taplock_return_to" = some "/dash" ∧
    (callback tlW reqNoCode).1
      = Except.error (PyError.httpException 400 "Authorization code not found" []) ∧
    (render_http_exception 400 "Authorization code not found" []).cookies = [] :=
  ⟨rfl, rfl, rfl⟩

/-- C1 (amended): the return-to cookie is consumed and cleared only on the
success path — a successful callback response ends with the delete of the
return-to cookie; on the missing-code and failed-exchange paths the handler
raises a 400 HTTPException whose rendered response carries no cookie
operation, leaving the return-to cookie in place until its 300-second
Max-Age expires. -/
theorem callbackClearsReturnToOnSuccessOnly (tl : TapLockState) (req : Request) :
    (∀ r, (callback tl req).1 = Except.ok r →
        r.cookies.getLast? = some (CookieOp.delete "taplock_return_to")) ∧
    (∀ s d hs, (callback tl req).1 = Except.error (PyError.httpException s d hs) →
        s = 400 ∧ (render_http_exception s d hs).cookies = []) := by
  constructor
  · intro r h
    simp only [callback, check_init_ok] at h
    cases hq : req.queryGet "code" with
    | none =>
        simp only [hq] at h
        exact Except.noConfusion h
    | some c =>
        simp only [hq] at h
        by_cases hce : c = ""
        · simp only [if_pos hce] at h
          exact Except.noConfusion h
        · simp only [if_neg hce] at h
          cases hx : tl.client.exchange_code c with
          | error e =>
              simp only [hx] at h
              exact Except.noConfusion h
          | ok td =>
              simp only [hx, Except.ok.injEq] at h
              subst h
              simp [Response.deleteCookie, applyOps, redirectResponse]
  · intro s d hs h
    simp only [callback, check_init_ok] at h
    cases hq : req.queryGet "code" with
    | none =>
        simp only [hq, mkHTTPException, Option.getD, Except.error.injEq,
          PyError.httpException.injEq] at h
        exact ⟨h.1.symm, render_http_exception_cookies s d hs⟩
    | some c =>
        simp only [hq] at h
        by_cases hce : c = ""
        · simp only [if_pos hce, mkHTTPException, Option.getD, Except.error.injEq,
            PyError.httpException.injEq] at h
          exact ⟨h.1.symm, render_http_exception_cookies s d hs⟩
        · simp only [if_neg hce] at h
          cases hx : tl.client.exchange_code c with
          | error e =>
              simp only [hx, mkHTTPException, Option.getD, Except.error.injEq,
                PyError.httpException.injEq] at h
              exact ⟨h.1.symm, render_http_exception_cookies s d hs⟩
          | ok td =>
              simp only [hx] at h
              exact Except.noConfusion h

/-- Witness for C1's amended statement on the successful-exchange path. -/
theorem callbackClearsReturnToOnSuccessOnlyWitness :
    (okRespOf (callback tlW reqCbOk).1).cookies.getLast?
      = some (CookieOp.delete "taplock_return_to") :=
  (callbackClearsReturnToOnSuccessOnly tlW reqCbOk).1 (okRespOf (callback tlW reqCbOk).1) rfl

/-- The middleware's rendering of a resolver HTTPException with a non-empty
detail: the 401/307 JSON response carrying the detail and the exception
headers. -/
theorem dispatch_of_http_error (tl : TapLockState) (req : Request) (rof : Bool)
    (rt : Option String) (next : Request → Response) (s : Nat) (d : String)
    (hs : List (String × String)) (hp : req.path ≠ tl.cfg.callback_endpoint)
    (h : (handle_request tl req rof rt).1 = Except.error (PyError.httpException s d hs))
    (hd : (d != "") = true) :
    (dispatch tl rof rt req next).1
      = Except.ok (jsonResponse (Value.vdict [("detail", Value.str d)]) s hs) := by
  unfold dispatch
  rw [if_neg hp]
  rcases hh : handle_request tl req rof rt with ⟨res, tr⟩
  have hres : res = Except.error (PyError.httpException s d hs) := by
    rw [hh] at h
    exact h
  subst hres
  simp only [hh, hd, if_true]

/-- C8 counterexample: the denial reason strings are capitalized in the
code — the no-credential denial detail is "Not authenticated", not the
claimed "not authenticated", and the failed-refresh detail is
"Session expired", not "session expired"; the middleware renders the
capitalized string in the 401 JSON body. -/
theorem denialDetailsAreCapitalized :
    (handle_request tlW reqBare false none).1
      = Except.error (PyError.httpException 401 "Not authenticated" []) ∧
    (("Not authenticated" == "not authenticated") = false) ∧
    (handle_request tlW reqRefBad false none).1
      = Except.error (PyError.httpException 401 "Session expired" []) ∧
    (("Session expired" == "session expired") = false) ∧
    (dispatch tlW false none reqBare nextW).1
      = Except.ok (jsonResponse (Value.vdict [("detail", Value.str "Not authenticated")]) 401 []) :=
  ⟨rfl, rfl, rfl, rfl, rfl⟩

/-- C8 (amended): on the no-credentials path under redirectOnFail=false the
denial detail is "Not authenticated" (capitalized), rendered by the
middleware as a 401 JSON body whose detail field is "Not authenticated";
on the failed-refresh path the detail is "Session expired"; the two reason
strings are distinct. -/
theorem deniedReasonStrings (tl : TapLockState) (req : Request) (rt : Option String)
    (next : Request → Response) (hp : req.path ≠ tl.cfg.callback_endpoint)
    (ha : accessUnusable tl req) :
    (refreshUnavailable tl req →
        (handle_request tl req false rt).1
          = Except.error (PyError.httpException 401 "Not authenticated" []) ∧
        (dispatch tl false rt req next).1
          = Except.ok (jsonResponse
              (Value.vdict [("detail", Value.str "Not authenticated")]) 401 [])) ∧
    (refreshFails tl req →
        (handle_request tl req false rt).1
          = Except.error (PyError.httpException 401 "Session expired" []) ∧
        (dispatch tl false rt req next).1
          = Except.ok (jsonResponse
              (Value.vdict [("detail", Value.str "Session expired")]) 401 [])) ∧
    ("Not authenticated" : String) ≠ "Session expired" := by
  refine ⟨?_, ?_, by decide⟩
  · intro hru
    have h1 : (handle_request tl req false rt).1
        = Except.error (PyError.httpException 401 "Not authenticated" []) := by
      rw [handle_request_fst_unusable tl req false rt ha,
        refreshStep_unavailable tl req false rt Trace.nil hru]
      exact authFail_false tl req rt "Not authenticated"
    exact ⟨h1, dispatch_of_http_error tl req false rt next 401 "Not authenticated" [] hp h1
      (by decide)⟩
  · intro hrfl
    have h1 : (handle_request tl req false rt).1
        = Except.error (PyError.httpException 401 "Session expired" []) := by
      rw [handle_request_fst_unusable tl req false rt ha,
        refreshStep_fails tl req false rt Trace.nil hrfl]
      exact authFail_false tl req rt "Session expired"
    exact ⟨h1, dispatch_of_http_error tl req false rt next 401 "Session expired" [] hp h1
      (by decide)⟩

/-- Witness for C8's amended statement at a concrete cookie-less request. -/
theorem deniedReasonStringsWitness :
    (dispatch tlW false none reqBare nextW).1
      = Except.ok (jsonResponse
          (Value.vdict [("detail", Value.str "Not authenticated")]) 401 []) :=
  ((deniedReasonStrings tlW reqBare none nextW (by decide)
      (fun _ h => Option.noConfusion h)).1 (fun _ h => Option.noConfusion h)).2

/-- C4 counterexample: the gate passes the decoded claims to the
cookie-setting helper unconditionally, so a successful access-token decode
can still write a cookie: with decoded claims carrying an access_token
entry, the dependency's response gains a set-cookie operation even though
resolution succeeded on the decode path and no refresh was attempted. -/
theorem decodeSuccessCanStillWriteCookies :
    (handle_request tlLeaky reqAccGood false none).2.refresh_calls = [] ∧
    (secure_impl tlLeaky reqAccGood emptyResponse false none).1
      = Except.ok (Value.vdict [("access_token", Value.str "leaked")],
          { emptyResponse with
              cookies := [CookieOp.set
                (auth_cookie_args "taplock_access_token" (Value.str "leaked"))] }) :=
  ⟨rfl, rfl⟩

/-- C4 (amended): when a present, non-empty access-token cookie decodes
successfully, the resolver returns the decoded claims immediately and the
refresh exchange is never called; the gate's cookie writes on the response
are exactly set_cookies applied to the decoded claims — empty whenever
those claims contain no truthy access_token or refresh_token entry (the
claim's unconditional "no cookie writes" holds only under that proviso). -/
theorem accessDecodeSuccessPath (tl : TapLockState) (req : Request) (resp : Response)
    (rof : Bool) (rt : Option String) (a : String) (td : Dict) (c : TapLockClient)
    (hc : tl.client = ClientField.inst c)
    (ha : req.cookieGet tl.cfg.access_token_cookie = some a) (hae : a ≠ "")
    (hd : c.decode_access_token a = .ok td) :
    handle_request tl req rof rt
      = (Except.ok td, Trace.app (readT tl.cfg.access_token_cookie) (decodeT a)) ∧
    (handle_request tl req rof rt).2.refresh_calls = [] ∧
    (secure_impl tl req resp rof rt).1
      = Except.ok (dgetD td "fields" (Value.vdict td), applyOps resp (set_cookies tl.cfg td)) ∧
    (optTruthy (dget td "access_token") = false →
       optTruthy (dget td "refresh_token") = false → set_cookies tl.cfg td = []) := by
  have h1 : handle_request tl req rof rt
      = (Except.ok td, Trace.app (readT tl.cfg.access_token_cookie) (decodeT a)) := by
    simp only [handle_request, check_init_ok, ha, if_neg hae, hc,
      ClientField.decode_access_token, hd]
  refine ⟨h1, by rw [h1]; rfl, ?_, ?_⟩
  · simp only [secure_impl, h1]
  · intro hta htr
    simp only [set_cookies, set_cookie_if_falsy _ _ hta, set_cookie_if_falsy _ _ htr,
      List.append_nil]

/-- Witness for C4's amended statement at a concrete request with a
decodable access token. -/
theorem accessDecodeSuccessPathWitness :
    handle_request tlW reqAccGood false none
      = (Except.ok [("sub", Value.str "alice")],
         Trace.app (readT "taplock_access_token") (decodeT "good")) :=
  (accessDecodeSuccessPath tlW reqAccGood emptyResponse false none "good"
      [("sub", Value.str "alice")] clientW rfl rfl (by decide) rfl).1

/-- C5 counterexample: with exchanged credentials whose refresh_token entry
is present but empty, the gate writes only the access cookie — presence of
the token alone does not trigger the write, Python truthiness does, so
"exactly when the token is present" fails at this input. -/
theorem presentEmptyRefreshTokenNotWritten :
    dget [("access_token", Value.str "newacc"), ("refresh_token", Value.str "")]
        "refresh_token" = some (Value.str "") ∧
    (secure_impl tlEmptyRef reqRefOnly emptyResponse false none).1
      = Except.ok
          (Value.vdict [("access_token", Value.str "newacc"), ("refresh_token", Value.str "")],
           { emptyResponse with
               cookies := [CookieOp.set
                 (auth_cookie_args "taplock_access_token" (Value.str "newacc"))] }) :=
  ⟨rfl, rfl⟩

/-- C5 (amended): with no usable access token and a non-empty refresh-token
cookie whose exchange succeeds, resolution returns the exchanged
credentials and the gate writes the new access-token and refresh-token
cookies onto the outbound response — each one exactly when the
corresponding token entry of the exchanged credentials is present and
non-empty (Python-truthy). -/
theorem refreshSuccessWritesFreshCookies (tl : TapLockState) (req : Request)
    (resp : Response) (rof : Bool) (rt : Option String) (r : String) (td : Dict)
    (c : TapLockClient) (hc : tl.client = ClientField.inst c)
    (ha : accessUnusable tl req)
    (hr : req.cookieGet tl.cfg.refresh_token_cookie = some r) (hre : r ≠ "")
    (hx : c.exchange_refresh_token r = .ok td) :
    (handle_request tl req rof rt).1 = Except.ok td ∧
    (secure_impl tl req resp rof rt).1
      = Except.ok (dgetD td "fields" (Value.vdict td), applyOps resp (set_cookies tl.cfg td)) ∧
    set_cookies tl.cfg td
      = (if optTruthy (dget td "access_token")
           then [CookieOp.set (auth_cookie_args tl.cfg.access_token_cookie
                   ((dget td "access_token").getD (Value.str "")))] else [])
        ++ (if optTruthy (dget td "refresh_token")
           then [CookieOp.set (auth_cookie_args tl.cfg.refresh_token_cookie
                   ((dget td "refresh_token").getD (Value.str "")))] else []) := by
  have h1 : (handle_request tl req rof rt).1 = Except.ok td := by
    rw [handle_request_fst_unusable tl req rof rt ha]
    exact refreshStep_ok tl req rof rt Trace.nil r td c hc hr hre hx
  refine ⟨h1, ?_, ?_⟩
  · rcases hres : handle_request tl req rof rt with ⟨res, tr⟩
    have hok : res = Except.ok td := by
      rw [hres] at h1
      exact h1
    subst hok
    simp only [secure_impl, hres]
  · rw [set_cookies, set_cookie_if_eq_ite, set_cookie_if_eq_ite]

/-- Witness for C5's amended statement at a concrete refresh-only request. -/
theorem refreshSuccessWritesFreshCookiesWitness :
    (handle_request tlW reqRefOnly false none).1
      = Except.ok [("access_token", Value.str "newacc"), ("refresh_token", Value.str "newref")] :=
  (refreshSuccessWritesFreshCookies tlW reqRefOnly emptyResponse false none "refok"
      [("access_token", Value.str "newacc"), ("refresh_token", Value.str "newref")] clientW
      rfl (fun _ h => Option.noConfusion h) rfl (by decide) rfl).1

/-- C6 counterexample: with an explicitly given but empty returnTo the code
falls back to the request URL (Python `return_to or str(request.url)`), so
the 307's stashed return-to cookie carries the request URL instead of the
given returnTo value. -/
theorem emptyGivenReturnToFallsBack :
    (handle_request tlW reqBare true (some "")).1
      = Except.error (PyError.httpException 307 "Temporary Redirect"
          [("location", "https://provider.example/authorize"),
           ("set-cookie",
            "taplock_return_to=https://app.example/page; HttpOnly; Max-Age=300; Path=/; SameSite=lax; Secure")]) ∧
    pyOr (some "") reqBare.url = "https://app.example/page" :=
  ⟨rfl, rfl⟩

/-- C6 (amended): with no usable access token, under redirectOnFail=true,
when the refresh-token cookie is missing/empty or the refresh exchange
fails, resolution yields a 307 whose headers carry the provider
authorization URL and a return-to cookie valued with the effective target:
the policy's returnTo when a non-empty one is given, otherwise the current
request's full URL (an explicitly given empty returnTo also falls back to
the request URL). -/
theorem redirectCarriesEffectiveReturnTo (tl : TapLockState) (req : Request)
    (rt : Option String) (c : TapLockClient) (hc : tl.client = ClientField.inst c)
    (ha : accessUnusable tl req)
    (hrf : refreshUnavailable tl req ∨ refreshFails tl req) :
    (handle_request tl req true rt).1
      = Except.error (PyError.httpException 307 "Temporary Redirect"
          [("location", c.authorization_url),
           renderCookieOp (CookieOp.set (return_to_cookie_args (pyOr rt req.url)))]) ∧
    (∀ s, rt = some s → s ≠ "" → pyOr rt req.url = s) ∧
    (rt = none → pyOr rt req.url = req.url) := by
  refine ⟨?_, ?_, ?_⟩
  · rw [handle_request_fst_unusable tl req true rt ha]
    rcases hrf with hru | hrfl
    · rw [refreshStep_unavailable tl req true rt Trace.nil hru]
      exact authFail_true tl req rt "Not authenticated" c hc
    · rw [refreshStep_fails tl req true rt Trace.nil hrfl]
      exact authFail_true tl req rt "Session expired" c hc
  · intro s hs hse
    rw [hs]
    simp [pyOr, hse]
  · intro hn
    rw [hn]
    rfl

/-- Witness for C6's amended statement with an explicit non-empty returnTo. -/
theorem redirectCarriesEffectiveReturnToWitness :
    (handle_request tlW reqBare true (some "/dashboard")).1
      = Except.error (PyError.httpException 307 "Temporary Redirect"
          [("location", clientW.authorization_url),
           renderCookieOp (CookieOp.set (return_to_cookie_args
             (pyOr (some "/dashboard") reqBare.url)))]) :=
  (redirectCarriesEffectiveReturnTo tlW reqBare (some "/dashboard") clientW rfl
      (fun _ h => Option.noConfusion h) (Or.inl (fun _ h => Option.noConfusion h))).1

/-- C3 (confirmed): off the callback path, the per-route dependency gate
(as FastAPI composes it: secure_impl over the route handler's response,
raised HTTPExceptions rendered by the default handler) and the blanket
middleware produce identical results for the same cookies and policy: the
same resolution outcome and effect trace, the same fresh-credential cookie
writes on the downstream response on success, the same 401 JSON denial
body, and the same rendered 307 redirect. -/
theorem dependencyAndMiddlewareAgree (tl : TapLockState) (req : Request) (rof : Bool)
    (rt : Option String) (next : Request → Response)
    (hp : req.path ≠ tl.cfg.callback_endpoint) :
    dispatch tl rof rt req next = gate_render tl req rof rt next := by
  unfold dispatch gate_render secure_impl
  rw [if_neg hp]
  rcases hh : handle_request tl req rof rt with ⟨res, tr⟩
  cases res with
  | ok td => rfl
  | error e =>
      cases e with
      | httpException s d hs =>
          rcases handle_request_http_cases tl req rof rt s d hs (by rw [hh]) with
            ⟨hs1, hd1⟩ | ⟨hs1, hd1 | hd1⟩ <;> subst hs1 <;> subst hd1 <;> rfl
      | runtimeError m => rfl
      | typeError m => rfl

/-- Witness for C3 at a concrete request off the callback path. -/
theorem dependencyAndMiddlewareAgreeWitness :
    dispatch tlW false none reqBare nextW = gate_render tlW reqBare false none nextW :=
  dependencyAndMiddlewareAgree tlW reqBare false none nextW (by decide)

end Taplock
